import Mathlib

/-!
Shallow embedding of the figure-compositing core of `src/examples/paper.py`
(class `ArcanaPaper`): the bounding-box crop, centred zero-padding,
mid-plane slice extraction with aspect ratios and intensity windowing,
panel assembly, output-path routing, and the working-directory usage of the
three external-viewer (mrview) invocations of `figure12`.

Numpy arrays are modelled as dimension tuples together with a total value
function (values in `ℚ`); an out-of-range read never occurs on the code
paths modelled, and the places where Python would raise are modelled by
`Except`.  `Option ℚ` models a float that may be NaN (`none` = NaN), which
only the raw input volume of `_plot_mid_slices` needs.
-/

set_option maxRecDepth 100000

namespace ArcanaPaper

/-- Exceptions raised (or discussed by the specification) on the modelled
code paths.  `valueError` stands for Python's `ValueError` (numpy's empty
reduction in `_crop`, and `np.pad` with a negative pad width);
`indexError` for `IndexError` (indexing `shape[1]` of an array that
`np.squeeze` collapsed below 2-D, or a scalar index on an empty axis);
`emptyVolumeError` is the dedicated error class the specification names,
which the code never defines nor raises. -/
inductive PyError where
  | valueError
  | indexError
  | emptyVolumeError
deriving DecidableEq, Inhabited

/-- A 2-D numpy array: height, width, and the value at each index pair.
Reads outside `[0,h) × [0,w)` never happen on the modelled code paths. -/
structure Arr2 where
  h : ℕ
  w : ℕ
  val : ℕ → ℕ → ℚ
deriving Inhabited

/-- A 3-D numpy array of (non-NaN) scalar intensities. -/
structure Arr3 where
  n0 : ℕ
  n1 : ℕ
  n2 : ℕ
  val : ℕ → ℕ → ℕ → ℚ
deriving Inhabited

/-- A raw 3-D volume whose entries may be NaN (`none` = NaN). -/
structure Arr3N where
  n0 : ℕ
  n1 : ℕ
  n2 : ℕ
  val : ℕ → ℕ → ℕ → Option ℚ
deriving Inhabited

theorem Arr2.ext_iff' {a b : Arr2} (hh : a.h = b.h) (hw : a.w = b.w)
    (hv : a.val = b.val) : a = b := by
  cases a; cases b; cases hh; cases hw; cases hv; rfl

/-- `array[np.isnan(array)] = 0.0` (paper.py:207): every NaN becomes `0.0`,
producing a NaN-free volume. -/
def nanToZero (a : Arr3N) : Arr3 :=
  ⟨a.n0, a.n1, a.n2, fun i j k => (a.val i j k).getD 0⟩

/-- Claim-side helper (C10): the same volume with every NaN replaced by an
actual zero entry, still in the NaN-capable representation. -/
def zeroNaNs (a : Arr3N) : Arr3N :=
  ⟨a.n0, a.n1, a.n2, fun i j k => some ((a.val i j k).getD 0)⟩

/-- All in-bounds index triples of a 3-D array, in C (row-major) order. -/
def coords (a : Arr3) : List (ℕ × ℕ × ℕ) :=
  (List.range a.n0).flatMap fun i =>
    (List.range a.n1).flatMap fun j =>
      (List.range a.n2).map fun k => (i, j, k)

/-- `np.argwhere(array)` (paper.py:240): the index triples of the nonzero
entries, in C order. -/
def argwhere (a : Arr3) : List (ℕ × ℕ × ℕ) :=
  (coords a).filter fun p => decide (a.val p.1 p.2.1 p.2.2 ≠ 0)

/-- `ArcanaPaper._crop` (paper.py:238-245).  Per axis it takes
`a = nz.min(axis=0)[i]`, `b = nz.max(axis=0)[i]` and slices to
`slice(max(a - border, 0), min(b + border, shape[i]))`; the slice stop is
exclusive, exactly as in Python.  `nz.min` on the empty `argwhere` result
of an all-zero array raises numpy's `ValueError`.  `border : ℕ`, so
`a - border` is truncated subtraction, which agrees with Python's
`max(a - border, 0)`. -/
def _crop (array : Arr3) (border : ℕ) : Except PyError Arr3 :=
  let nz := argwhere array
  if nz.isEmpty then .error .valueError
  else
    let a0 := ((nz.map fun p => p.1).min?).getD 0
    let a1 := ((nz.map fun p => p.2.1).min?).getD 0
    let a2 := ((nz.map fun p => p.2.2).min?).getD 0
    let b0 := ((nz.map fun p => p.1).max?).getD 0
    let b1 := ((nz.map fun p => p.2.1).max?).getD 0
    let b2 := ((nz.map fun p => p.2.2).max?).getD 0
    let lo0 := a0 - border
    let lo1 := a1 - border
    let lo2 := a2 - border
    let hi0 := min (b0 + border) array.n0
    let hi1 := min (b1 + border) array.n1
    let hi2 := min (b2 + border) array.n2
    .ok ⟨hi0 - lo0, hi1 - lo1, hi2 - lo2,
      fun i j k => array.val (lo0 + i) (lo1 + j) (lo2 + k)⟩

/-- The crop result projected out of `Except` (meaningful whenever the crop
succeeded). -/
def cropOf (array : Arr3) (border : ℕ) : Arr3 :=
  ((_crop array border).toOption).getD default

/-- `ArcanaPaper._pad_to_size` (paper.py:247-257), specialised to the 2-D
arrays all modelled call sites pass.  `pad_before[i] = (size[i] - shape[i]) // 2`
is Python floor division of possibly negative ints, hence `Int.fdiv`;
`pad_after[i] = size[i] - shape[i] - pad_before[i]`; `np.pad` raises
`ValueError` on a negative pad width, and otherwise the padded array has
shape `pad_before + shape + pad_after` with the original content shifted by
`pad_before` and zeros elsewhere. -/
def _pad_to_size (array : Arr2) (size : ℕ × ℕ) : Except PyError Arr2 :=
  let pb0 : ℤ := Int.fdiv ((size.1 : ℤ) - (array.h : ℤ)) 2
  let pb1 : ℤ := Int.fdiv ((size.2 : ℤ) - (array.w : ℤ)) 2
  let pa0 : ℤ := (size.1 : ℤ) - (array.h : ℤ) - pb0
  let pa1 : ℤ := (size.2 : ℤ) - (array.w : ℤ) - pb1
  if pb0 < 0 ∨ pa0 < 0 ∨ pb1 < 0 ∨ pa1 < 0 then .error .valueError
  else
    .ok ⟨(pb0 + (array.h : ℤ) + pa0).toNat, (pb1 + (array.w : ℤ) + pa1).toNat,
      fun i j =>
        if pb0 ≤ (i : ℤ) ∧ (i : ℤ) < pb0 + (array.h : ℤ) ∧
           pb1 ≤ (j : ℤ) ∧ (j : ℤ) < pb1 + (array.w : ℤ)
        then array.val ((i : ℤ) - pb0).toNat ((j : ℤ) - pb1).toNat
        else 0⟩

/-- The pad result projected out of `Except`. -/
def padOf (array : Arr2) (size : ℕ × ℕ) : Arr2 :=
  ((_pad_to_size array size).toOption).getD default

/-- Insert into a sorted list of rationals (ascending). -/
def insertSorted (x : ℚ) : List ℚ → List ℚ
  | [] => [x]
  | y :: ys => if x ≤ y then x :: y :: ys else y :: insertSorted x ys

/-- Sort a list of rationals ascending. -/
def sortRats (l : List ℚ) : List ℚ := l.foldr insertSorted []

/-- `np.percentile(values, q)` with the default linear interpolation:
sort the flattened values, take position `q / 100 * (n - 1)` and linearly
interpolate between the neighbouring order statistics. -/
def npPercentile (values : List ℚ) (q : ℚ) : ℚ :=
  let s := sortRats values
  let n := s.length
  let pos : ℚ := q * ((n : ℚ) - 1) / 100
  let lo : ℤ := Int.floor pos
  let hi : ℤ := Int.ceil pos
  let frac : ℚ := pos - (lo : ℚ)
  let vLo := s.getD lo.toNat 0
  let vHi := s.getD hi.toNat 0
  vLo + frac * (vHi - vLo)

/-- The flattened intensity list of a 3-D array, in C order (what
`np.percentile` reduces over). -/
def flattenA (a : Arr3) : List ℚ :=
  (List.range a.n0).flatMap fun i =>
    (List.range a.n1).flatMap fun j =>
      (List.range a.n2).map fun k => a.val i j k

/-- `arr.T` on a 2-D array. -/
def transpose2 (x : Arr2) : Arr2 := ⟨x.w, x.h, fun i j => x.val j i⟩

/-- `array[-1:0:-1, -1:0:-1, k]` (paper.py:231): both in-plane axes
reversed and trimmed at the old index 0 (a Python slice `-1:0:-1` runs from
the last element down to index 1 inclusive, so its length is the original
length minus one), the third axis fixed at `k`. -/
def slice01 (a : Arr3) (k : ℕ) : Arr2 :=
  ⟨a.n0 - 1, a.n1 - 1, fun i j => a.val (a.n0 - 1 - i) (a.n1 - 1 - j) k⟩

/-- `array[-1:0:-1, j, -1:0:-1]` (paper.py:233). -/
def slice02 (a : Arr3) (j : ℕ) : Arr2 :=
  ⟨a.n0 - 1, a.n2 - 1, fun i k => a.val (a.n0 - 1 - i) j (a.n2 - 1 - k)⟩

/-- `array[i, -1:0:-1, -1:0:-1]` (paper.py:235). -/
def slice12 (a : Arr3) (i : ℕ) : Arr2 :=
  ⟨a.n1 - 1, a.n2 - 1, fun j k => a.val i (a.n1 - 1 - j) (a.n2 - 1 - k)⟩

/-- One grid cell as handed to `plt.imshow` (paper.py:220-229): the padded
slice image and the display parameters attached to it.  `axesVisible` is
`false` because `plot_slice` hides both axes of the subplot. -/
structure PanelCell where
  img : Arr2
  aspect : ℚ
  vmin : ℚ
  vmax : ℚ
  axesVisible : Bool
deriving Inhabited

/-- The inner function `plot_slice(slce, index, aspect)` of
`_plot_mid_slices` (paper.py:220-229), applied to the raw extracted plane:
the call site passes `np.squeeze(plane).T`.  `np.squeeze` drops every axis
of size 1, so a plane with such an axis arrives at `_pad_to_size` as a 1-D
(or 0-D) array and `array.shape[1]` (paper.py:250-251) raises `IndexError`;
otherwise the squeeze is the identity and the plane is transposed and
zero-padded to the shared square canvas. -/
def plot_slice (plane : Arr2) (paddedSize : ℕ) (aspect vmax : ℚ) :
    Except PyError PanelCell :=
  if plane.h = 1 ∨ plane.w = 1 then .error .indexError
  else do
    let padded ← _pad_to_size (transpose2 plane) (paddedSize, paddedSize)
    .ok ⟨padded, aspect, 0, vmax, false⟩

/-- One rendered panel row: the three cells `plot_slice` produced at grid
columns `row_index * 3`, `+1`, `+2`. -/
structure PanelRow where
  c0 : PanelCell
  c1 : PanelCell
  c2 : PanelCell
deriving Inhabited

/-- `padded_size = np.max(array.shape)` of the cropped array
(paper.py:211): the shared square canvas side of one row. -/
def canvasSide (a : Arr3) : ℕ := max a.n0 (max a.n1 a.n2)

/-- `vmax = vmax if vmax is not None else np.percentile(array, vmax_percentile)`
(paper.py:215-217), where `array` is the already-cropped volume `a`. -/
def vmaxOf (vmaxArg : Option ℚ) (a : Arr3) (vmaxPercentile : ℚ) : ℚ :=
  match vmaxArg with
  | some v => v
  | none => npPercentile (flattenA a) vmaxPercentile

/-- `ArcanaPaper._plot_mid_slices` (paper.py:203-236) for one row, up to
the point where the three cells are placed on the grid.

* `array[np.isnan(array)] = 0.0` — NaNs zeroed first;
* `array = self._crop(array, padding)` — bounding-box crop;
* `padded_size = np.max(array.shape)`; `mid = np.array(array.shape) // 2`;
* `vmax = vmax if vmax is not None else np.percentile(array, vmax_percentile)`
  — note the percentile is taken on the already-cropped array;
* three `plot_slice` calls on the reversed mid-planes with aspects
  `vox[0]/vox[1]`, `vox[0]/vox[2]`, `vox[1]/vox[2]` and window
  `vmin = 0`, `vmax`.

A scalar mid-index into an empty axis would raise `IndexError` in Python,
modelled by the explicit guards. -/
def _plot_mid_slices (array : Arr3N) (voxSizes : ℚ × ℚ × ℚ)
    (padding : ℕ := 1) (vmaxArg : Option ℚ := none)
    (vmaxPercentile : ℚ := 98) : Except PyError PanelRow := do
  let a0 := nanToZero array
  let a ← _crop a0 padding
  let paddedSize := canvasSide a
  let mid0 := a.n0 / 2
  let mid1 := a.n1 / 2
  let mid2 := a.n2 / 2
  let vmax := vmaxOf vmaxArg a vmaxPercentile
  let c0 ← if a.n2 = 0 then .error .indexError else
    plot_slice (slice01 a mid2) paddedSize (voxSizes.1 / voxSizes.2.1) vmax
  let c1 ← if a.n1 = 0 then .error .indexError else
    plot_slice (slice02 a mid1) paddedSize (voxSizes.1 / voxSizes.2.2) vmax
  let c2 ← if a.n0 = 0 then .error .indexError else
    plot_slice (slice12 a mid0) paddedSize (voxSizes.2.1 / voxSizes.2.2) vmax
  .ok ⟨c0, c1, c2⟩

/-- The rendered row projected out of `Except`. -/
def rowOf (e : Except PyError PanelRow) : PanelRow := (e.toOption).getD default

/-- One row's input as `_plot_slice_panel` fetches it from the data layer:
the raw volume, its voxel sizes `header['pixdim'][1:4]`, and the per-row
`plot_args` options forwarded to `_plot_mid_slices` (defaults as in the
Python signature). -/
structure RowInput where
  arrayN : Arr3N
  vox : ℚ × ℚ × ℚ
  padding : ℕ := 1
  vmaxArg : Option ℚ := none
  vmaxPercentile : ℚ := 98
deriving Inhabited

/-- The assembled figure of `_plot_slice_panel` (paper.py:166-188) for one
subject/visit: `GridSpec(n_rows, 3)` with `wspace = hspace = 0.0` and one
rendered `PanelRow` per requested data name, in order. -/
structure Figure where
  nRows : ℕ
  nCols : ℕ
  wspace : ℚ
  hspace : ℚ
  rows : List PanelRow
deriving Inhabited

/-- The sequential loop body of `_plot_slice_panel` over its rows; the
first Python exception aborts the whole panel. -/
def panelRows : List RowInput → Except PyError (List PanelRow)
  | [] => .ok []
  | r :: rest => do
    let pr ← _plot_mid_slices r.arrayN r.vox r.padding r.vmaxArg r.vmaxPercentile
    let prs ← panelRows rest
    .ok (pr :: prs)

/-- `ArcanaPaper._plot_slice_panel` (paper.py:166-188) for one
subject/visit, with the volumes already fetched: build the
`GridSpec(len(data_names), 3)` figure with no inter-cell spacing and one
row of mid-slices per input. -/
def _plot_slice_panel (inputs : List RowInput) : Except PyError Figure := do
  let rows ← panelRows inputs
  .ok ⟨inputs.length, 3, 0, 0, rows⟩

/-- The figure projected out of `Except`. -/
def figOf (e : Except PyError Figure) : Figure := (e.toOption).getD default

/-- Claim-side helper (C5): the maximum dimension over the row's three
extracted mid-plane slices — each slice's dimensions are a pair of the
values `a.n0 - 1`, `a.n1 - 1`, `a.n2 - 1` of the cropped array `a`, and
all three values occur among the slices. -/
def maxSliceDim (a : Arr3) : ℕ := max (a.n0 - 1) (max (a.n1 - 1) (a.n2 - 1))

/-- What happens to one assembled figure (paper.py:191-201): `save_path is
None` means `plt.show()`, otherwise `plt.savefig` at the derived path. -/
inductive OutputAction where
  | display
  | save (path : String)
deriving DecidableEq, Inhabited

/-- The path construction of paper.py:195-200: `base, ext =
op.splitext(save_path)`, then `base += '-sub' + subj_id` when the study
has more than one subject, then `base += '-vis' + visit_id` when it has
more than one visit, and finally `sess_save_path = base + ext`. -/
def sessSavePath (base ext subjId visitId : String)
    (nSubjects nVisits : ℕ) : String :=
  let b1 := if 1 < nSubjects then base ++ "-sub" ++ subjId else base
  let b2 := if 1 < nVisits then b1 ++ "-vis" ++ visitId else b1
  b2 ++ ext

/-- The display-or-save decision of paper.py:191-201; the save target is
already split into `(base, ext)` by `op.splitext`. -/
def routeOutput (savePath : Option (String × String))
    (subjId visitId : String) (nSubjects nVisits : ℕ) : OutputAction :=
  match savePath with
  | none => .display
  | some (base, ext) =>
    .save (sessSavePath base ext subjId visitId nSubjects nVisits)

/-- One external-viewer (mrview) subprocess invocation of `figure12`
(paper.py:121-125): the working directory it runs in (`cwd=tmpdir`) and
the `-plane 2 - i` option it is passed.  Directories are identified by the
order in which `tempfile.mkdtemp` created them. -/
structure ViewerCall where
  cwd : ℕ
  plane : ℕ
deriving DecidableEq, Inhabited

/-- The fixed-name screenshot file an invocation writes and `figure12`
reads back (paper.py:126-127): `op.join(tmpdir, 'screenshot0000.png')`. -/
def screenshotOf (c : ViewerCall) : ℕ × String := (c.cwd, "screenshot0000.png")

/-- The working-directory structure of one `figure12` session
(paper.py:100-128): `tmpdir = tempfile.mkdtemp()` is called once, before
the `for i in range(3)` loop, and every one of the three `sp.call`
invocations runs with `cwd=tmpdir`.  `tempfile.mkdtemp` is modelled as
drawing the next fresh directory id; the function returns the three
invocations of the session together with the advanced fresh-id counter. -/
def figure12Calls (freshDir : ℕ) : List ViewerCall × ℕ :=
  let tmpdir := freshDir
  ((List.range 3).map fun i => ⟨tmpdir, 2 - i⟩, freshDir + 1)

/-! ### Concrete fixtures used by witnesses and counterexamples -/

/-- The 10×10×10 volume of the specification's crop example: nonzero
exactly on the cube of indices 3..6 (inclusive) per axis. -/
def cube10 : Arr3 :=
  ⟨10, 10, 10, fun i j k =>
    if 3 ≤ i ∧ i ≤ 6 ∧ 3 ≤ j ∧ j ≤ 6 ∧ 3 ≤ k ∧ k ≤ 6 then 1 else 0⟩

/-- A 2×2×2 all-zero volume. -/
def zeroVol2 : Arr3 := ⟨2, 2, 2, fun _ _ _ => 0⟩

/-- A 1×2×3 all-zero volume. -/
def zeroVol123 : Arr3 := ⟨1, 2, 3, fun _ _ _ => 0⟩

/-- A 3×3×3 all-one raw volume (no NaNs). -/
def ones3 : Arr3N := ⟨3, 3, 3, fun _ _ _ => some 1⟩

/-- A 5×5×5 all-one raw volume (no NaNs). -/
def ones5 : Arr3N := ⟨5, 5, 5, fun _ _ _ => some 1⟩

/-- A 1×1×1 volume whose single entry is NaN. -/
def nanVol : Arr3N := ⟨1, 1, 1, fun _ _ _ => none⟩

/-- A 1×2 array with entries 5 and 7. -/
def arr12 : Arr2 := ⟨1, 2, fun _ j => if j = 0 then 5 else 7⟩

/-- A one-row panel request over `ones3`. -/
def inputs1 : List RowInput := [⟨ones3, (1, 1, 1), 1, some 1, 98⟩]

/-! ### Shared helper lemmas -/

theorem mem_coords {a : Arr3} {p : ℕ × ℕ × ℕ} (hp : p ∈ coords a) :
    p.1 < a.n0 ∧ p.2.1 < a.n1 ∧ p.2.2 < a.n2 := by
  simp only [coords, List.mem_flatMap, List.mem_map, List.mem_range] at hp
  obtain ⟨i, hi, j, hj, k, hk, rfl⟩ := hp
  exact ⟨hi, hj, hk⟩

theorem argwhere_eq_nil {a : Arr3}
    (hz : ∀ i < a.n0, ∀ j < a.n1, ∀ k < a.n2, a.val i j k = 0) :
    argwhere a = [] := by
  rw [argwhere, List.filter_eq_nil_iff]
  intro p hp
  obtain ⟨h1, h2, h3⟩ := mem_coords hp
  simp [hz _ h1 _ h2 _ h3]

/-- `_crop` of an array with no nonzero entry hits numpy's empty-reduction
`ValueError` (the `nz.min(axis=0)` of an empty `argwhere`). -/
theorem crop_allZero {a : Arr3} (border : ℕ)
    (hz : ∀ i < a.n0, ∀ j < a.n1, ∀ k < a.n2, a.val i j k = 0) :
    _crop a border = .error .valueError := by
  simp [_crop, argwhere_eq_nil hz]

theorem fdiv_two_eq (a : ℤ) : Int.fdiv a 2 = a / 2 :=
  Int.fdiv_eq_ediv a (by decide)

/-- Full characterisation of a successful `_pad_to_size`: the target size
was at least the current shape, the result has exactly the target shape,
and its content is the original centred at offset
`pad_before = (target - current) / 2` with zeros elsewhere. -/
theorem pad_ok_char {x : Arr2} {S : ℕ × ℕ} {y : Arr2}
    (h : _pad_to_size x S = .ok y) :
    x.h ≤ S.1 ∧ x.w ≤ S.2 ∧ y.h = S.1 ∧ y.w = S.2 ∧
    ∀ i j, y.val i j =
      if (S.1 - x.h) / 2 ≤ i ∧ i < (S.1 - x.h) / 2 + x.h ∧
         (S.2 - x.w) / 2 ≤ j ∧ j < (S.2 - x.w) / 2 + x.w
      then x.val (i - (S.1 - x.h) / 2) (j - (S.2 - x.w) / 2) else 0 := by
  simp only [_pad_to_size, fdiv_two_eq] at h
  split at h
  · exact absurd h (by simp)
  case isFalse hc =>
    obtain rfl := (Except.ok.inj h).symm
    push_neg at hc
    obtain ⟨h1, h2, h3, h4⟩ := hc
    refine ⟨by omega, by omega, by simp only []; omega, by simp only []; omega, ?_⟩
    intro i j
    simp only []
    split
    case isTrue hin =>
      rw [if_pos (by omega)]
      congr 1 <;> omega
    case isFalse hout =>
      rw [if_neg (by omega)]

theorem pad_ok_dims {x : Arr2} {S : ℕ × ℕ} {y : Arr2}
    (h : _pad_to_size x S = .ok y) : y.h = S.1 ∧ y.w = S.2 :=
  ⟨(pad_ok_char h).2.2.1, (pad_ok_char h).2.2.2.1⟩

/-! ### Claim C1 — crop box arithmetic -/

/-- Claim C1 is refuted by the code: on the specification's own example —
a 10×10×10 volume whose nonzero content is exactly the cube at indices
3..6 inclusive per axis — `_crop` with border 1 succeeds but returns shape
(5,5,5), not the claimed (6,6,6).  The Python slice stop
`min(b + border, shape[i])` is exclusive, so the range expanded by the
border on the high side loses one voxel; with border 0 the crop returns
width 3 although the minimal nonzero range 3..6 has width 4, dropping the
nonzero plane at index 6 (`cube10.val 6 6 6 = 1`). -/
theorem c1_crop_off_by_one :
    _crop cube10 1 = .ok (cropOf cube10 1) ∧
    ((cropOf cube10 1).n0, (cropOf cube10 1).n1, (cropOf cube10 1).n2) =
      (5, 5, 5) ∧
    ((cropOf cube10 1).n0, (cropOf cube10 1).n1, (cropOf cube10 1).n2) ≠
      (6, 6, 6) ∧
    ((cropOf cube10 0).n0, (cropOf cube10 0).n1, (cropOf cube10 0).n2) =
      (3, 3, 3) ∧
    cube10.val 6 6 6 = 1 :=
  ⟨rfl, by decide, by decide, by decide, by decide⟩

/-! ### Claim C2 — crop of an all-zero volume -/

/-- Claim C2 counterexample: crop of an all-zero volume does fail, but
with numpy's generic `ValueError` (raised by the empty `nz.min(axis=0)`
reduction), not with a dedicated `EmptyVolumeError` — the code defines no
such class. -/
theorem c2_counterexample :
    _crop zeroVol2 0 = .error .valueError ∧
    _crop zeroVol2 0 ≠ .error .emptyVolumeError :=
  ⟨rfl, fun hc =>
    absurd (Except.error.inj ((rfl :
      _crop zeroVol2 0 = .error .valueError).symm.trans hc)) (by decide)⟩

/-- Claim C2 amended: for every all-zero volume (no nonzero element), crop
fails explicitly — it raises (numpy's `ValueError` from the empty
reduction, rather than a dedicated `EmptyVolumeError`) and never returns
an empty array silently. -/
theorem c2_allzero_crop_fails (a : Arr3) (border : ℕ)
    (hz : ∀ i < a.n0, ∀ j < a.n1, ∀ k < a.n2, a.val i j k = 0) :
    _crop a border = .error .valueError :=
  crop_allZero border hz

/-- Witness for `c2_allzero_crop_fails` on the concrete 1×2×3 zero
volume with border 2. -/
theorem c2_allzero_crop_fails_witness :
    _crop zeroVol123 2 = .error .valueError :=
  c2_allzero_crop_fails zeroVol123 2 (by decide)

/-! ### Claim C6 — output file naming -/

/-- Claim C6: a `None` save target displays and persists nothing;
otherwise the output filename is `base ++ ext` unchanged for a
single-subject single-visit batch, gains `-sub{subject_id}` when the
batch has more than one subject and `-vis{visit_id}` when it has more
than one visit, with all suffixes inserted before the extension. -/
theorem c6_output_naming (base ext subjId visitId : String)
    (nSubjects nVisits : ℕ) :
    routeOutput none subjId visitId nSubjects nVisits = .display ∧
    (nSubjects = 1 → nVisits = 1 →
      routeOutput (some (base, ext)) subjId visitId nSubjects nVisits =
        .save (base ++ ext)) ∧
    (1 < nSubjects → nVisits = 1 →
      routeOutput (some (base, ext)) subjId visitId nSubjects nVisits =
        .save (base ++ "-sub" ++ subjId ++ ext)) ∧
    (nSubjects = 1 → 1 < nVisits →
      routeOutput (some (base, ext)) subjId visitId nSubjects nVisits =
        .save (base ++ "-vis" ++ visitId ++ ext)) ∧
    (1 < nSubjects → 1 < nVisits →
      routeOutput (some (base, ext)) subjId visitId nSubjects nVisits =
        .save (base ++ "-sub" ++ subjId ++ "-vis" ++ visitId ++ ext)) := by
  refine ⟨rfl, ?_, ?_, ?_, ?_⟩ <;> intro h1 h2 <;>
    simp [routeOutput, sessSavePath, h1, h2]

/-- Witness for `c6_output_naming`: in a two-subject single-visit batch
the file for subject "S2" is saved as `fig-subS2.png`. -/
theorem c6_output_naming_witness :
    routeOutput (some ("fig", ".png")) "S2" "V1" 2 1 =
      .save "fig-subS2.png" :=
  ((c6_output_naming "fig" ".png" "S2" "V1" 2 1).2.2.1 (by omega) rfl).trans
    (by decide)

/-! ### Claim C8 — external-viewer working directories -/

/-- Claim C8 is false on the code: `tempfile.mkdtemp` is called once per
session, before the `for i in range(3)` loop, so the first and second
mrview invocations share one working directory and the fixed screenshot
filename `screenshot0000.png` resolves to the same file for both; the
per-invocation working directories are not pairwise distinct. -/
theorem c8_counterexample :
    screenshotOf ((figure12Calls 0).1.getD 0 default) =
      screenshotOf ((figure12Calls 0).1.getD 1 default) ∧
    ¬ ((figure12Calls 0).1.map ViewerCall.cwd).Nodup :=
  ⟨rfl, by decide⟩

/-- Claim C8 amended: the three external-viewer invocations of one
`figure12` session all run in the single temporary directory created once
for that session (one `mkdtemp` per session, so the fresh-directory
counter advances by one), with camera planes 2, 1, 0 in order; the
invocations do not get individual fresh directories. -/
theorem c8_shared_tmpdir (freshDir : ℕ) :
    (figure12Calls freshDir).1.map ViewerCall.cwd =
      List.replicate 3 freshDir ∧
    (figure12Calls freshDir).1.map ViewerCall.plane = [2, 1, 0] ∧
    (figure12Calls freshDir).2 = freshDir + 1 :=
  ⟨rfl, rfl, rfl⟩

/-! ### Claim C3 — pad_to_size shape, centring and failure -/

/-- Claim C3: for a 2-D array and a target size at least its shape on both
axes, `_pad_to_size` succeeds and returns an array of exactly the target
size, zero-padded around the content with
`pad_before = (target - current) / 2` (floor) per axis and the remainder
after; if the target is smaller than the shape on any axis it fails
(numpy's `ValueError` for a negative pad width). -/
theorem c3_pad_to_size (x : Arr2) (S : ℕ × ℕ) :
    (x.h ≤ S.1 → x.w ≤ S.2 →
      _pad_to_size x S = .ok (padOf x S) ∧
      (padOf x S).h = S.1 ∧ (padOf x S).w = S.2 ∧
      ∀ i j, (padOf x S).val i j =
        if (S.1 - x.h) / 2 ≤ i ∧ i < (S.1 - x.h) / 2 + x.h ∧
           (S.2 - x.w) / 2 ≤ j ∧ j < (S.2 - x.w) / 2 + x.w
        then x.val (i - (S.1 - x.h) / 2) (j - (S.2 - x.w) / 2) else 0) ∧
    ((S.1 < x.h ∨ S.2 < x.w) → _pad_to_size x S = .error .valueError) := by
  constructor
  · intro hh hw
    have hok : _pad_to_size x S =
        .ok ((_pad_to_size x S).toOption.getD default) := by
      simp only [_pad_to_size, fdiv_two_eq]
      rw [if_neg (by omega)]
      rfl
    rw [padOf]
    obtain ⟨_, _, h3, h4, h5⟩ := pad_ok_char hok
    exact ⟨hok, h3, h4, h5⟩
  · intro hlt
    simp only [_pad_to_size, fdiv_two_eq]
    rw [if_pos (by omega)]

/-- Witness for `c3_pad_to_size` at the 1×2 array `arr12` with target
(3,2) (success branch: shape (3,2), content centred with pad_before 1 on
axis 0) and target (0,2) (failure branch). -/
theorem c3_pad_to_size_witness :
    (_pad_to_size arr12 (3, 2) = .ok (padOf arr12 (3, 2)) ∧
      (padOf arr12 (3, 2)).h = 3 ∧ (padOf arr12 (3, 2)).w = 2 ∧
      (padOf arr12 (3, 2)).val 0 0 = 0 ∧
      (padOf arr12 (3, 2)).val 1 0 = 5 ∧
      (padOf arr12 (3, 2)).val 1 1 = 7 ∧
      (padOf arr12 (3, 2)).val 2 1 = 0) ∧
    _pad_to_size arr12 (0, 2) = .error .valueError := by
  have h := c3_pad_to_size arr12 (3, 2)
  have h2 := c3_pad_to_size arr12 (0, 2)
  obtain ⟨hok, hh, hw, hval⟩ := h.1 (by decide) (by decide)
  refine ⟨⟨hok, hh, hw, ?_, ?_, ?_, ?_⟩, h2.2 (Or.inl (by decide))⟩
  · rw [hval 0 0]; decide
  · rw [hval 1 0]; decide
  · rw [hval 1 1]; decide
  · rw [hval 2 1]; decide

/-! ### Claim C9 — pad_to_size is idempotent -/

/-- Claim C9: `_pad_to_size` is idempotent — padding an already padded
array to the same (valid) target size returns it unchanged. -/
theorem c9_pad_idempotent (x : Arr2) (S : ℕ × ℕ)
    (hh : x.h ≤ S.1) (hw : x.w ≤ S.2) (y : Arr2)
    (hy : _pad_to_size x S = .ok y) :
    _pad_to_size y S = .ok y := by
  obtain ⟨hx1, hx2, yh, yw, hval⟩ := pad_ok_char hy
  simp only [_pad_to_size, fdiv_two_eq, yh, yw]
  rw [if_neg (by omega)]
  refine congrArg Except.ok
    (Arr2.ext_iff' (by simp only []; rw [yh]; omega)
      (by simp only []; rw [yw]; omega) ?_)
  funext i j
  simp only []
  by_cases hij : i < S.1 ∧ j < S.2
  · rw [if_pos (by omega)]
    congr 1 <;> omega
  · rw [if_neg (by omega), hval i j, if_neg (by omega)]

/-- Witness for `c9_pad_idempotent`: padding `arr12` to (3,2) and padding
the result again to (3,2) leaves it unchanged. -/
theorem c9_pad_idempotent_witness :
    _pad_to_size (padOf arr12 (3, 2)) (3, 2) = .ok (padOf arr12 (3, 2)) :=
  c9_pad_idempotent arr12 (3, 2) (by decide) (by decide)
    (padOf arr12 (3, 2)) rfl

/-! ### Inversion lemmas for the rendering pipeline -/

theorem bind_ok_eq {ε α β : Type} (a : α) (f : α → Except ε β) :
    (Except.ok a >>= f) = f a := rfl

theorem bind_error_eq {ε α β : Type} (e : ε) (f : α → Except ε β) :
    ((Except.error e : Except ε α) >>= f) = .error e := rfl

/-- What a successful `plot_slice` guarantees about its cell: the image is
the square shared canvas, the aspect, `vmin = 0`, `vmax` and hidden axes
are attached unchanged. -/
theorem plot_slice_ok_inv {plane : Arr2} {ps : ℕ} {asp vm : ℚ}
    {c : PanelCell} (h : plot_slice plane ps asp vm = .ok c) :
    c.img.h = ps ∧ c.img.w = ps ∧ c.aspect = asp ∧ c.vmin = 0 ∧
    c.vmax = vm ∧ c.axesVisible = false := by
  rw [plot_slice] at h
  split at h
  · exact Except.noConfusion h
  · cases hp : _pad_to_size (transpose2 plane) (ps, ps) with
    | error e =>
      rw [hp] at h
      simp only [bind_error_eq] at h
      exact Except.noConfusion h
    | ok padded =>
      rw [hp] at h
      simp only [bind_ok_eq] at h
      obtain rfl := (Except.ok.inj h).symm
      obtain ⟨hd, hw2⟩ := pad_ok_dims hp
      exact ⟨hd, hw2, rfl, rfl, rfl, rfl⟩

/-- Inversion of a successful `_plot_mid_slices`: the crop succeeded and
each of the three cells is the corresponding successful `plot_slice` on
the reversed mid-plane, the shared canvas, the row's window and the
respective aspect. -/
theorem midSlices_ok_inv {array : Arr3N} {vox : ℚ × ℚ × ℚ} {padding : ℕ}
    {vmaxArg : Option ℚ} {pct : ℚ} {row : PanelRow}
    (h : _plot_mid_slices array vox padding vmaxArg pct = .ok row) :
    ∃ a, _crop (nanToZero array) padding = .ok a ∧
      plot_slice (slice01 a (a.n2 / 2)) (canvasSide a) (vox.1 / vox.2.1)
        (vmaxOf vmaxArg a pct) = .ok row.c0 ∧
      plot_slice (slice02 a (a.n1 / 2)) (canvasSide a) (vox.1 / vox.2.2)
        (vmaxOf vmaxArg a pct) = .ok row.c1 ∧
      plot_slice (slice12 a (a.n0 / 2)) (canvasSide a) (vox.2.1 / vox.2.2)
        (vmaxOf vmaxArg a pct) = .ok row.c2 := by
  simp only [_plot_mid_slices] at h
  cases hc : _crop (nanToZero array) padding with
  | error e =>
    rw [hc] at h
    simp only [bind_error_eq] at h
    exact Except.noConfusion h
  | ok a =>
    rw [hc] at h
    simp only [bind_ok_eq] at h
    by_cases h2 : a.n2 = 0
    · rw [if_pos h2] at h
      simp only [bind_error_eq] at h
      exact Except.noConfusion h
    · rw [if_neg h2] at h
      cases hc0 : plot_slice (slice01 a (a.n2 / 2)) (canvasSide a)
          (vox.1 / vox.2.1) (vmaxOf vmaxArg a pct) with
      | error e =>
        rw [hc0] at h
        simp only [bind_error_eq] at h
        exact Except.noConfusion h
      | ok c0 =>
        rw [hc0] at h
        simp only [bind_ok_eq] at h
        by_cases h1 : a.n1 = 0
        · rw [if_pos h1] at h
          simp only [bind_error_eq] at h
          exact Except.noConfusion h
        · rw [if_neg h1] at h
          cases hc1 : plot_slice (slice02 a (a.n1 / 2)) (canvasSide a)
              (vox.1 / vox.2.2) (vmaxOf vmaxArg a pct) with
          | error e =>
            rw [hc1] at h
            simp only [bind_error_eq] at h
            exact Except.noConfusion h
          | ok c1 =>
            rw [hc1] at h
            simp only [bind_ok_eq] at h
            by_cases h0 : a.n0 = 0
            · rw [if_pos h0] at h
              simp only [bind_error_eq] at h
              exact Except.noConfusion h
            · rw [if_neg h0] at h
              cases hc2 : plot_slice (slice12 a (a.n0 / 2)) (canvasSide a)
                  (vox.2.1 / vox.2.2) (vmaxOf vmaxArg a pct) with
              | error e =>
                rw [hc2] at h
                simp only [bind_error_eq] at h
                exact Except.noConfusion h
              | ok c2 =>
                rw [hc2] at h
                simp only [bind_ok_eq] at h
                obtain rfl := (Except.ok.inj h).symm
                exact ⟨a, rfl, hc0, hc1, hc2⟩

theorem panelRows_ok_inv (inputs : List RowInput) (rows : List PanelRow)
    (h : panelRows inputs = .ok rows) :
    rows.length = inputs.length ∧
    ∀ k (hk : k < inputs.length) (hk2 : k < rows.length),
      _plot_mid_slices (inputs.get ⟨k, hk⟩).arrayN (inputs.get ⟨k, hk⟩).vox
        (inputs.get ⟨k, hk⟩).padding (inputs.get ⟨k, hk⟩).vmaxArg
        (inputs.get ⟨k, hk⟩).vmaxPercentile = .ok (rows.get ⟨k, hk2⟩) := by
  induction inputs generalizing rows with
  | nil =>
    simp only [panelRows] at h
    obtain rfl := (Except.ok.inj h).symm
    exact ⟨rfl, fun k hk _ => absurd hk (Nat.not_lt_zero k)⟩
  | cons r rest ih =>
    simp only [panelRows] at h
    cases hr : _plot_mid_slices r.arrayN r.vox r.padding r.vmaxArg
        r.vmaxPercentile with
    | error e =>
      rw [hr] at h
      simp only [bind_error_eq] at h
      exact Except.noConfusion h
    | ok pr =>
      rw [hr] at h
      simp only [bind_ok_eq] at h
      cases hrest : panelRows rest with
      | error e =>
        rw [hrest] at h
        simp only [bind_error_eq] at h
        exact Except.noConfusion h
      | ok prs =>
        rw [hrest] at h
        simp only [bind_ok_eq] at h
        obtain rfl := (Except.ok.inj h).symm
        obtain ⟨hlen, hall⟩ := ih prs hrest
        refine ⟨by simp [hlen], ?_⟩
        intro k hk hk2
        cases k with
        | zero => exact hr
        | succ k =>
          exact hall k (Nat.lt_of_succ_lt_succ hk)
            (Nat.lt_of_succ_lt_succ hk2)

theorem canvasSide_eq_maxSliceDim_add_one {a : Arr3}
    (h1 : 1 ≤ canvasSide a) : canvasSide a = maxSliceDim a + 1 := by
  unfold canvasSide at h1 ⊢
  unfold maxSliceDim
  omega

/-- The per-row layout guarantees of one successfully rendered panel row,
phrased against the cropped volume `a` of that row: axes hidden in all
three cells, every cell image a square of the row's own canvas side
`max a.n0 (max a.n1 a.n2)`, and — whenever the cropped volume is nonempty —
that side is one more than the maximum dimension over the row's three
extracted slices (not `maxSliceDim + padding`). -/
def rowLayoutOk (inp : RowInput) (row : PanelRow) : Prop :=
  _crop (nanToZero inp.arrayN) inp.padding =
    .ok (cropOf (nanToZero inp.arrayN) inp.padding) ∧
  row.c0.axesVisible = false ∧ row.c1.axesVisible = false ∧
  row.c2.axesVisible = false ∧
  row.c0.img.h = canvasSide (cropOf (nanToZero inp.arrayN) inp.padding) ∧
  row.c0.img.w = canvasSide (cropOf (nanToZero inp.arrayN) inp.padding) ∧
  row.c1.img.h = canvasSide (cropOf (nanToZero inp.arrayN) inp.padding) ∧
  row.c1.img.w = canvasSide (cropOf (nanToZero inp.arrayN) inp.padding) ∧
  row.c2.img.h = canvasSide (cropOf (nanToZero inp.arrayN) inp.padding) ∧
  row.c2.img.w = canvasSide (cropOf (nanToZero inp.arrayN) inp.padding) ∧
  (1 ≤ canvasSide (cropOf (nanToZero inp.arrayN) inp.padding) →
    canvasSide (cropOf (nanToZero inp.arrayN) inp.padding) =
      maxSliceDim (cropOf (nanToZero inp.arrayN) inp.padding) + 1)

theorem midSlices_rowLayoutOk {inp : RowInput} {row : PanelRow}
    (h : _plot_mid_slices inp.arrayN inp.vox inp.padding inp.vmaxArg
      inp.vmaxPercentile = .ok row) : rowLayoutOk inp row := by
  obtain ⟨a, hc, h0, h1, h2⟩ := midSlices_ok_inv h
  have hcrop : cropOf (nanToZero inp.arrayN) inp.padding = a := by
    rw [cropOf, hc]
    rfl
  obtain ⟨i0h, i0w, _, _, _, ax0⟩ := plot_slice_ok_inv h0
  obtain ⟨i1h, i1w, _, _, _, ax1⟩ := plot_slice_ok_inv h1
  obtain ⟨i2h, i2w, _, _, _, ax2⟩ := plot_slice_ok_inv h2
  rw [rowLayoutOk, hcrop]
  exact ⟨hc, ax0, ax1, ax2, i0h, i0w, i1h, i1w, i2h, i2w,
    fun hge => canvasSide_eq_maxSliceDim_add_one hge⟩

/-! ### Claim C4 — per-row intensity window -/

/-- Claim C4: every successfully rendered row attaches to each of its
three cells the intensity window with lower bound exactly 0 and upper
bound the row's explicit `vmax` when one is given, otherwise the
`vmax_percentile`-th percentile of the intensities of the cropped volume
(the percentile is computed on `flattenA` of the crop result, not on the
uncropped volume).  The `vmax_percentile` argument of `_plot_mid_slices`
defaults to 98, as in the Python signature. -/
theorem c4_intensity_window (array : Arr3N) (vox : ℚ × ℚ × ℚ)
    (padding : ℕ) (vmaxArg : Option ℚ) (pct : ℚ) (row : PanelRow)
    (h : _plot_mid_slices array vox padding vmaxArg pct = .ok row) :
    (row.c0.vmin = 0 ∧ row.c1.vmin = 0 ∧ row.c2.vmin = 0) ∧
    (∀ v, vmaxArg = some v →
      row.c0.vmax = v ∧ row.c1.vmax = v ∧ row.c2.vmax = v) ∧
    (vmaxArg = none →
      row.c0.vmax =
        npPercentile (flattenA (cropOf (nanToZero array) padding)) pct ∧
      row.c1.vmax =
        npPercentile (flattenA (cropOf (nanToZero array) padding)) pct ∧
      row.c2.vmax =
        npPercentile (flattenA (cropOf (nanToZero array) padding)) pct) := by
  obtain ⟨a, hc, h0, h1, h2⟩ := midSlices_ok_inv h
  have hcrop : cropOf (nanToZero array) padding = a := by
    rw [cropOf, hc]
    rfl
  obtain ⟨_, _, _, m0, x0, _⟩ := plot_slice_ok_inv h0
  obtain ⟨_, _, _, m1, x1, _⟩ := plot_slice_ok_inv h1
  obtain ⟨_, _, _, m2, x2, _⟩ := plot_slice_ok_inv h2
  refine ⟨⟨m0, m1, m2⟩, ?_, ?_⟩
  · rintro v rfl
    exact ⟨x0, x1, x2⟩
  · rintro rfl
    rw [hcrop]
    exact ⟨x0, x1, x2⟩

/-- Witness for `c4_intensity_window` on the all-one 3×3×3 volume with no
explicit `vmax` and percentile 50: the rendered row's first cell has
`vmin = 0` and `vmax` equal to the 50th percentile of the cropped
volume's intensities. -/
theorem c4_intensity_window_witness :
    (rowOf (_plot_mid_slices ones3 (1, 1, 2) 1 none 50)).c0.vmin = 0 ∧
    (rowOf (_plot_mid_slices ones3 (1, 1, 2) 1 none 50)).c0.vmax =
      npPercentile (flattenA (cropOf (nanToZero ones3) 1)) 50 := by
  have h := c4_intensity_window ones3 (1, 1, 2) 1 none 50
    (rowOf (_plot_mid_slices ones3 (1, 1, 2) 1 none 50)) rfl
  exact ⟨h.1.1, (h.2.2 rfl).1⟩

/-! ### Claim C7 — slice aspect ratios -/

/-- Claim C7: each extracted mid-plane slice carries as render aspect the
ratio of the two physical voxel spacings spanning its plane — cell 0 is
the plane spanning axes 0 and 1 (third axis fixed) with aspect
`vox0 / vox1`, cell 1 spans axes 0 and 2 with aspect `vox0 / vox2`, cell 2
spans axes 1 and 2 with aspect `vox1 / vox2`. -/
theorem c7_slice_aspect (array : Arr3N) (vox : ℚ × ℚ × ℚ) (padding : ℕ)
    (vmaxArg : Option ℚ) (pct : ℚ) (row : PanelRow)
    (h : _plot_mid_slices array vox padding vmaxArg pct = .ok row) :
    row.c0.aspect = vox.1 / vox.2.1 ∧
    row.c1.aspect = vox.1 / vox.2.2 ∧
    row.c2.aspect = vox.2.1 / vox.2.2 := by
  obtain ⟨a, hc, h0, h1, h2⟩ := midSlices_ok_inv h
  exact ⟨(plot_slice_ok_inv h0).2.2.1, (plot_slice_ok_inv h1).2.2.1,
    (plot_slice_ok_inv h2).2.2.1⟩

/-- Witness for `c7_slice_aspect`: with voxel spacing (1.0, 1.0, 2.0) the
slice on the plane spanning axes 0 and 2 carries aspect ratio
1/2 = 0.5. -/
theorem c7_slice_aspect_witness :
    (rowOf (_plot_mid_slices ones3 (1, 1, 2) 1 (some 1) 98)).c1.aspect =
      1 / 2 :=
  (c7_slice_aspect ones3 (1, 1, 2) 1 (some 1) 98
    (rowOf (_plot_mid_slices ones3 (1, 1, 2) 1 (some 1) 98)) rfl).2.1

/-! ### Claim C5 — panel geometry -/

/-- Claim C5 counterexample: for a row with padding 2 over the all-one
5×5×5 volume the shared square canvas side is 5 (the maximum dimension of
the cropped volume), while the maximum dimension over the row's three
extracted slices is 4; the side is therefore NOT max slice dimension plus
padding (4 + 2 = 6) — it exceeds the max slice dimension by exactly 1
whatever the padding. -/
theorem c5_counterexample :
    _plot_mid_slices ones5 (1, 1, 1) 2 (some 1) 98 =
      .ok (rowOf (_plot_mid_slices ones5 (1, 1, 1) 2 (some 1) 98)) ∧
    (rowOf (_plot_mid_slices ones5 (1, 1, 1) 2 (some 1) 98)).c0.img.h = 5 ∧
    maxSliceDim (cropOf (nanToZero ones5) 2) = 4 ∧
    (5 : ℕ) ≠ 4 + 2 :=
  ⟨rfl, by decide, by decide, by decide⟩

/-- Claim C5 amended: a successfully assembled figure has exactly
`len(rows)` grid rows and 3 columns with no inter-cell spacing, and in
every row all cells have hidden axes and share one square canvas computed
from that row's own cropped volume (per-row, not panel-wide); the canvas
side equals the maximum dimension of the row's cropped volume, which is
the maximum dimension over the row's own three slices plus ONE (not plus
the row's `padding`; the two agree only at the default `padding = 1`). -/
theorem c5_panel_layout (inputs : List RowInput) (f : Figure)
    (h : _plot_slice_panel inputs = .ok f) :
    f.nRows = inputs.length ∧ f.nCols = 3 ∧ f.wspace = 0 ∧ f.hspace = 0 ∧
    f.rows.length = inputs.length ∧
    ∀ k (hk : k < inputs.length) (hk2 : k < f.rows.length),
      rowLayoutOk (inputs.get ⟨k, hk⟩) (f.rows.get ⟨k, hk2⟩) := by
  simp only [_plot_slice_panel] at h
  cases hr : panelRows inputs with
  | error e =>
    rw [hr] at h
    simp only [bind_error_eq] at h
    exact Except.noConfusion h
  | ok rows =>
    rw [hr] at h
    simp only [bind_ok_eq] at h
    obtain rfl := (Except.ok.inj h).symm
    obtain ⟨hlen, hall⟩ := panelRows_ok_inv inputs rows hr
    exact ⟨rfl, rfl, rfl, rfl, hlen,
      fun k hk hk2 => midSlices_rowLayoutOk (hall k hk hk2)⟩

/-- Witness for `c5_panel_layout` on the one-row panel over the all-one
3×3×3 volume: 1 grid row, 3 columns, zero spacing, and the single row's
first cell is a 3×3 square with hidden axes (canvas side 3 = max slice
dimension 2 plus one). -/
theorem c5_panel_layout_witness :
    (figOf (_plot_slice_panel inputs1)).nRows = 1 ∧
    (figOf (_plot_slice_panel inputs1)).nCols = 3 ∧
    (figOf (_plot_slice_panel inputs1)).wspace = 0 ∧
    (figOf (_plot_slice_panel inputs1)).hspace = 0 ∧
    (figOf (_plot_slice_panel inputs1)).rows.length = 1 := by
  have h := c5_panel_layout inputs1 (figOf (_plot_slice_panel inputs1)) rfl
  exact ⟨h.1, h.2.1, h.2.2.1, h.2.2.2.1, h.2.2.2.2.1⟩

/-! ### Claim C10 — NaN guard -/

/-- Claim C10: `_plot_mid_slices` zeroes every NaN before cropping and
windowing, so rendering a volume gives exactly the same result as
rendering the volume with its NaNs replaced by zeros (hence NaN never
reaches the percentile computation), and a volume whose entries are all
NaN or zero is treated as all-zero by the crop, which fails. -/
theorem c10_nan_guard (array : Arr3N) (vox : ℚ × ℚ × ℚ) (padding : ℕ)
    (vmaxArg : Option ℚ) (pct : ℚ) :
    (_plot_mid_slices array vox padding vmaxArg pct =
      _plot_mid_slices (zeroNaNs array) vox padding vmaxArg pct) ∧
    ((∀ i < array.n0, ∀ j < array.n1, ∀ k < array.n2,
        array.val i j k = none ∨ array.val i j k = some 0) →
      _crop (nanToZero array) padding = .error .valueError ∧
      _plot_mid_slices array vox padding vmaxArg pct =
        .error .valueError) := by
  constructor
  · rfl
  · intro hnan
    have hcrop : _crop (nanToZero array) padding = .error .valueError := by
      refine crop_allZero padding ?_
      intro i hi j hj k hk
      rcases hnan i hi j hj k hk with hv | hv <;> simp [nanToZero, hv]
    refine ⟨hcrop, ?_⟩
    simp only [_plot_mid_slices, hcrop, bind_error_eq]

/-- Witness for `c10_nan_guard` at the 1×1×1 all-NaN volume: its render
equals the render of the zeroed volume, and the crop step rejects it as
all-zero. -/
theorem c10_nan_guard_witness :
    _plot_mid_slices nanVol (1, 1, 1) 1 none 98 =
      _plot_mid_slices (zeroNaNs nanVol) (1, 1, 1) 1 none 98 ∧
    _crop (nanToZero nanVol) 1 = .error .valueError :=
  ⟨(c10_nan_guard nanVol (1, 1, 1) 1 none 98).1,
    ((c10_nan_guard nanVol (1, 1, 1) 1 none 98).2 (by decide)).1⟩

end ArcanaPaper
